import Mathlib

/-
  Verification development for `Widget_Classes.py`, a Qt dashboard widget
  library for an off-road competition vehicle.

  The embedding below models the two cores of the file:
  * the gauge widgets (`Temp_Gauge`, `Tachometer`, `Fuel_Gauge`,
    `Speedometer`): a stored integer `value` plus a `max_value`, mutated by
    `add_to_value` / `update_value` with wrap-around modulo arithmetic, and
    the value-dependent parts of their `paintEvent` geometry;
  * the two-step RPM-bound entry machine inside `Variable_Section`
    (`change_widget`, `update_two_step`, `move_two_step`).

  Python's `%` on integers returns a result with the sign of the divisor;
  for the positive divisors used here this agrees with Lean's `Int.emod`
  (the `%` of `Int`), so the wrap arithmetic is embedded verbatim.
  Floating-point expressions in the paint code are embedded over `ℚ`;
  every concrete quantity the claims touch is exact in both arithmetics.
-/

/-! ## Gauge widgets: state and mutation -/

/-- The numeric state held by each gauge widget: `self.value` and
`self.max_value` (`Widget_Classes.py`, e.g. lines 102-103). -/
structure GaugeState where
  value : Int
  max_value : Int
deriving DecidableEq

/-- `Temp_Gauge.__init__` (lines 94-109): stores `value = 0` and the given
`max_value`.  The source performs no validation and has no failure path, so
the embedded constructor always returns `.ok`. -/
def Temp_Gauge.init (max_value : Int) : Except String GaugeState :=
  .ok { value := 0, max_value := max_value }

/-- `Temp_Gauge.add_to_value` (lines 112-121):
`self.value = (self.value + change) % (self.max_value + 1)`. -/
def Temp_Gauge.add_to_value (s : GaugeState) (change : Int) : GaugeState :=
  { s with value := (s.value + change) % (s.max_value + 1) }

/-- `Temp_Gauge.update_value` (lines 123-132):
`self.value = new_value % (self.max_value + 1)`. -/
def Temp_Gauge.update_value (s : GaugeState) (new_value : Int) : GaugeState :=
  { s with value := new_value % (s.max_value + 1) }

/-- `Tachometer.__init__` (lines 242-257): no validation, no failure path. -/
def Tachometer.init (max_value : Int) : Except String GaugeState :=
  .ok { value := 0, max_value := max_value }

/-- `Tachometer.add_to_value` (lines 260-269). -/
def Tachometer.add_to_value (s : GaugeState) (change : Int) : GaugeState :=
  { s with value := (s.value + change) % (s.max_value + 1) }

/-- `Tachometer.update_value` (lines 271-280). -/
def Tachometer.update_value (s : GaugeState) (new_value : Int) : GaugeState :=
  { s with value := new_value % (s.max_value + 1) }

/-- `Fuel_Gauge.__init__` (lines 402-416): no validation, no failure path. -/
def Fuel_Gauge.init (max_value : Int) : Except String GaugeState :=
  .ok { value := 0, max_value := max_value }

/-- `Fuel_Gauge.add_to_value` (lines 419-428). -/
def Fuel_Gauge.add_to_value (s : GaugeState) (change : Int) : GaugeState :=
  { s with value := (s.value + change) % (s.max_value + 1) }

/-- `Fuel_Gauge.update_value` (lines 430-439). -/
def Fuel_Gauge.update_value (s : GaugeState) (new_value : Int) : GaugeState :=
  { s with value := new_value % (s.max_value + 1) }

/-- `Speedometer.__init__` (lines 526-541): no validation, no failure path. -/
def Speedometer.init (max_value : Int) : Except String GaugeState :=
  .ok { value := 0, max_value := max_value }

/-- `Speedometer.add_to_value` (lines 544-551). -/
def Speedometer.add_to_value (s : GaugeState) (change : Int) : GaugeState :=
  { s with value := (s.value + change) % (s.max_value + 1) }

/-- `Speedometer.update_value` (lines 553-562). -/
def Speedometer.update_value (s : GaugeState) (new_value : Int) : GaugeState :=
  { s with value := new_value % (s.max_value + 1) }

/-! ## Gauge widgets: value-dependent paint geometry -/

/-- The colors used by the paint code: `Qt.red`, `Qt.yellow`, `Qt.green`
and `QColor(255, 0, 255)` (magenta). -/
inductive GaugeColor where
  | red
  | yellow
  | green
  | magenta
deriving DecidableEq

/-- The gradient color stops set for the `Temp_Gauge` fill pen
(lines 164-167): `setColorAt(1, green)`, `setColorAt(0.2, yellow)`,
`setColorAt(0, red)`.  The stop list does not mention `self.value` or
`self.max_value`; both appear as arguments only to record that fact. -/
def Temp_Gauge.gradient_stops (value max_value : Int) : List (ℚ × GaugeColor) :=
  [(1, .green), (0.2, .yellow), (0, .red)]

/-- The length of the `Temp_Gauge` value-fill line (line 174):
`length = (self.value / (self.max_value*.5)) * size_factor`. -/
def Temp_Gauge.fill_length (value max_value : Int) (size_factor : ℚ) : ℚ :=
  ((value : ℚ) / ((max_value : ℚ) * 0.5)) * size_factor

/-- The gradient color stops set for the `Tachometer` fill pen
(lines 314-317): `setColorAt(0, green)`, `setColorAt(0.8, yellow)`,
`setColorAt(1, red)` — the mirrored order of the linear gauge. -/
def Tachometer.gradient_stops (value max_value : Int) : List (ℚ × GaugeColor) :=
  [(0, .green), (0.8, .yellow), (1, .red)]

/-- `arc_value` in `Tachometer.paintEvent` (line 324):
`arc_value = -1 * ((self.value / (self.max_value*.5)) * 90)`. -/
def Tachometer.arc_value (value max_value : Int) : ℚ :=
  -1 * (((value : ℚ) / ((max_value : ℚ) * 0.5)) * 90)

/-- The span actually passed to `drawArc` for the tachometer value fill
(lines 325-328): `-90` when `arc_value < -90`, else `arc_value`. -/
def Tachometer.arc_span_drawn (value max_value : Int) : ℚ :=
  if Tachometer.arc_value value max_value < -90 then -90
  else Tachometer.arc_value value max_value

/-- The pen color chosen for the `Fuel_Gauge` value indicator
(lines 467-474): green when `value >= max_value*.4`, else yellow when
`value >= max_value*.2`, else red when `value >= 0`, else magenta. -/
def Fuel_Gauge.fill_color (value max_value : Int) : GaugeColor :=
  if (value : ℚ) ≥ (max_value : ℚ) * 0.4 then .green
  else if (value : ℚ) ≥ (max_value : ℚ) * 0.2 then .yellow
  else if (value : ℚ) ≥ 0 then .red
  else .magenta

/-- Python's `int()` applied to a (here exactly represented) float:
truncation toward zero. -/
def pyInt (q : ℚ) : Int :=
  if 0 ≤ q then ⌊q⌋ else ⌈q⌉

/-- The tick labels drawn by `Temp_Gauge.paintEvent`, top to bottom
(lines 188, 193, 198, 203, 208, 213): `max_value`, `int(max_value*4/5)`,
`int(max_value*3/5)`, `int(max_value*2/5)`, `int(max_value*1/5)`, `0`. -/
def Temp_Gauge.tick_labels (max_value : Int) : List Int :=
  [max_value,
   pyInt ((max_value : ℚ) * 4 / 5),
   pyInt ((max_value : ℚ) * 3 / 5),
   pyInt ((max_value : ℚ) * 2 / 5),
   pyInt ((max_value : ℚ) * 1 / 5),
   0]

/-- The tick labels drawn by `Tachometer.paintEvent`, full scale down to 0
(lines 346, 351, 356, 364, 369, 375): `max_value`, `int(max_value*4/5)`,
`int(max_value*3/5)`, `int(max_value*2/5)`, `int(max_value*1/5)`, `0`. -/
def Tachometer.tick_labels (max_value : Int) : List Int :=
  [max_value,
   pyInt ((max_value : ℚ) * 4 / 5),
   pyInt ((max_value : ℚ) * 3 / 5),
   pyInt ((max_value : ℚ) * 2 / 5),
   pyInt ((max_value : ℚ) * 1 / 5),
   0]

/-! ## The two-step entry machine (`Variable_Section`) -/

/-- The four editable digits `self.two_step_current_digit_values`
(a 4-element Python list, written whole or at a fixed index 0..3). -/
structure Digits where
  d0 : Int
  d1 : Int
  d2 : Int
  d3 : Int
deriving DecidableEq

/-- The fields of `Variable_Section` (lines 774-786) that the two-step
machine reads or writes.  Cursor and phase are the source's string keys. -/
structure VariableSection where
  current_widget : String
  new_two_step_bounds : Int × Int
  selected_two_step_digit : String
  two_step_bound : String
  two_step_current_digit_values : Digits
  two_step_value_up : Bool
  two_step_bad_input : Bool
deriving DecidableEq

/-- `Variable_Section.__init__` (lines 760-786). -/
def Variable_Section.init : VariableSection :=
  { current_widget := "Startup"
    new_two_step_bounds := (0, 0)
    selected_two_step_digit := "first_digit"
    two_step_bound := "Upper"
    two_step_current_digit_values := ⟨0, 0, 0, 0⟩
    two_step_value_up := true
    two_step_bad_input := false }

/-- `Variable_Section.change_widget` (lines 788-804): set the current
widget; when it is `"Two-Step"`, also reset every two-step field. -/
def Variable_Section.change_widget (s : VariableSection) (new_widget : String) :
    VariableSection :=
  if new_widget = "Two-Step" then
    { s with
      current_widget := new_widget
      new_two_step_bounds := (0, 0)
      selected_two_step_digit := "first_digit"
      two_step_bound := "Upper"
      two_step_current_digit_values := ⟨0, 0, 0, 0⟩
      two_step_value_up := true
      two_step_bad_input := false }
  else
    { s with current_widget := new_widget }

/-- `Variable_Section.update_two_step` (lines 977-1008): add `value` to the
digit under the cursor, mod 10.  The `"rmp_digit"` case and the default
case (a diagnostic print in the source) leave the state unchanged.  The
Python `match` is first-match, embedded as an `if` chain. -/
def Variable_Section.update_two_step (s : VariableSection) (value : Int) :
    VariableSection :=
  if s.selected_two_step_digit = "first_digit" then
    { s with two_step_current_digit_values :=
        { s.two_step_current_digit_values with
          d0 := (s.two_step_current_digit_values.d0 + value) % 10 } }
  else if s.selected_two_step_digit = "second_digit" then
    { s with two_step_current_digit_values :=
        { s.two_step_current_digit_values with
          d1 := (s.two_step_current_digit_values.d1 + value) % 10 } }
  else if s.selected_two_step_digit = "third_digit" then
    { s with two_step_current_digit_values :=
        { s.two_step_current_digit_values with
          d2 := (s.two_step_current_digit_values.d2 + value) % 10 } }
  else if s.selected_two_step_digit = "forth_digit" then
    { s with two_step_current_digit_values :=
        { s.two_step_current_digit_values with
          d3 := (s.two_step_current_digit_values.d3 + value) % 10 } }
  else
    s

/-- The 4-digit value `d[0]*1000 + d[1]*100 + d[2]*10 + d[3]` computed
inline at lines 1027 and 1033. -/
def Variable_Section.digits_value (d : Digits) : Int :=
  d.d0 * 1000 + d.d1 * 100 + d.d2 * 10 + d.d3

/-- Successor in `self.two_step_digit_list` (line 781), as used at line
1046: `two_step_digit_list[two_step_digit_list.index(selected) + 1]`.
Line 1046 only runs with the cursor off `"rmp_digit"`; for a string not in
the list the source's `.index` raises, a state no caller produces. -/
def Variable_Section.next_digit (d : String) : String :=
  if d = "first_digit" then "second_digit"
  else if d = "second_digit" then "third_digit"
  else if d = "third_digit" then "forth_digit"
  else if d = "forth_digit" then "rmp_digit"
  else d

/-- `Variable_Section.move_two_step` (lines 1010-1048).  The second
component is the committed pair handed to the external consumer (the
`print` at line 1041, the designated CANBUS send point): `some (upper,
lower)` exactly on the `Committed` transition, `none` otherwise. -/
def Variable_Section.move_two_step (s : VariableSection) :
    VariableSection × Option (Int × Int) :=
  if s.selected_two_step_digit = "rmp_digit" then
    if s.two_step_bound = "Upper" then
      ({ s with
          new_two_step_bounds :=
            (Variable_Section.digits_value s.two_step_current_digit_values,
             s.new_two_step_bounds.2)
          two_step_bound := "Lower"
          two_step_current_digit_values := ⟨0, 0, 0, 0⟩
          selected_two_step_digit := "first_digit" }, none)
    else if s.two_step_bound = "Lower" then
      let s1 : VariableSection :=
        { s with
          new_two_step_bounds :=
            (s.new_two_step_bounds.1,
             Variable_Section.digits_value s.two_step_current_digit_values) }
      if s1.new_two_step_bounds.2 ≥ s1.new_two_step_bounds.1 then
        ({ s1 with two_step_bad_input := true }, none)
      else
        (Variable_Section.change_widget s1 "Competition",
         some s1.new_two_step_bounds)
    else
      (s, none)
  else
    ({ s with selected_two_step_digit :=
        Variable_Section.next_digit s.selected_two_step_digit }, none)

/-- An input event of the two-step machine: a digit adjustment
(`update_two_step`) or a cursor/phase advance (`move_two_step`). -/
inductive TwoStepOp where
  | adjust (value : Int)
  | advance
deriving DecidableEq

/-- Apply one input event to the machine state (discarding any emission). -/
def Variable_Section.applyOp (s : VariableSection) (op : TwoStepOp) :
    VariableSection :=
  match op with
  | .adjust v => Variable_Section.update_two_step s v
  | .advance => (Variable_Section.move_two_step s).1

/-- The input events of the spec's two-step commit example: enter digits
`0,1,0,0`, confirm the Upper bound, enter digits `0,0,5,0`, and move the
cursor back onto Confirm; the final confirming `advance` is applied
separately so its emission can be observed. -/
def two_step_example_ops : List TwoStepOp :=
  [.advance, .adjust 1, .advance, .advance, .advance, .advance,
   .advance, .advance, .adjust 1, .adjust 1, .adjust 1, .adjust 1, .adjust 1,
   .advance, .advance]

/-- The machine state of the commit example just before the final Lower
confirm, starting from a freshly entered two-step session. -/
def two_step_example_state : VariableSection :=
  two_step_example_ops.foldl Variable_Section.applyOp
    (Variable_Section.change_widget Variable_Section.init "Two-Step")

/-! ## Shared lemmas -/

/-- Wrap-around arithmetic: `a % (m + 1)` lands in `[0, m]` for `0 < m`. -/
theorem wrap_emod_bounds (a m : Int) (hm : 0 < m) :
    0 ≤ a % (m + 1) ∧ a % (m + 1) ≤ m := by
  have h1 : (m + 1) ≠ 0 := by omega
  have h2 : 0 < m + 1 := by omega
  refine ⟨Int.emod_nonneg a h1, ?_⟩
  have := Int.emod_lt_of_pos a h2
  omega

/-- Reducing the left summand modulo `n` does not change a sum modulo `n`. -/
theorem emod_add_left_cancel (a b n : Int) : (a % n + b) % n = (a + b) % n := by
  conv_lhs => rw [Int.add_emod]
  rw [Int.emod_emod_of_dvd _ dvd_rfl, ← Int.add_emod]

/-- All four gauge classes define `add_to_value` by the same wrap rule. -/
theorem tach_add_eq_temp : Tachometer.add_to_value = Temp_Gauge.add_to_value := rfl

/-- All four gauge classes define `add_to_value` by the same wrap rule. -/
theorem fuel_add_eq_temp : Fuel_Gauge.add_to_value = Temp_Gauge.add_to_value := rfl

/-- All four gauge classes define `add_to_value` by the same wrap rule. -/
theorem speed_add_eq_temp : Speedometer.add_to_value = Temp_Gauge.add_to_value := rfl

/-- A sequence of `add_to_value` calls accumulates the deltas modulo
`max_value + 1`. -/
theorem temp_foldl_add_value (ds : List Int) (s : GaugeState)
    (hm : 0 < s.max_value) (h0 : 0 ≤ s.value) (h1 : s.value ≤ s.max_value) :
    (ds.foldl Temp_Gauge.add_to_value s).value =
      (s.value + ds.sum) % (s.max_value + 1) := by
  induction ds generalizing s with
  | nil =>
    simp only [List.foldl_nil, List.sum_nil, add_zero]
    exact (Int.emod_eq_of_lt h0 (by omega)).symm
  | cons d ds ih =>
    have hb := wrap_emod_bounds (s.value + d) s.max_value hm
    rw [List.foldl_cons,
      ih (Temp_Gauge.add_to_value s d) hm hb.1 hb.2, List.sum_cons]
    show ((s.value + d) % (s.max_value + 1) + ds.sum) % (s.max_value + 1) =
      (s.value + (d + ds.sum)) % (s.max_value + 1)
    rw [emod_add_left_cancel, add_assoc]

/-- `add_to_value` calls whose deltas sum to a multiple of `max_value + 1`
return the value to its starting point. -/
theorem temp_foldl_add_id (ds : List Int) (s : GaugeState)
    (hm : 0 < s.max_value) (hdvd : (s.max_value + 1) ∣ ds.sum)
    (h0 : 0 ≤ s.value) (h1 : s.value ≤ s.max_value) :
    (ds.foldl Temp_Gauge.add_to_value s).value = s.value := by
  rw [temp_foldl_add_value ds s hm h0 h1]
  obtain ⟨k, hk⟩ := hdvd
  rw [hk, mul_comm, Int.add_mul_emod_self]
  exact Int.emod_eq_of_lt h0 (by omega)

/-! ## Claim theorems -/

/-- C3: for every gauge widget (linear temperature, tachometer, fuel,
speed) with `max_value > 0`, after `add_to_value delta` or
`update_value new_value` the stored value lies in `[0, max_value]`; and
any sequence of `add_to_value` calls whose deltas sum to a multiple of
`max_value + 1` leaves the value unchanged. -/
theorem gauge_wrap_invariant (m : Int) (hm : 0 < m) (s : GaugeState)
    (hs : s.max_value = m) (change new_value : Int) :
    (0 ≤ (Temp_Gauge.add_to_value s change).value ∧
      (Temp_Gauge.add_to_value s change).value ≤ m) ∧
    (0 ≤ (Temp_Gauge.update_value s new_value).value ∧
      (Temp_Gauge.update_value s new_value).value ≤ m) ∧
    (0 ≤ (Tachometer.add_to_value s change).value ∧
      (Tachometer.add_to_value s change).value ≤ m) ∧
    (0 ≤ (Tachometer.update_value s new_value).value ∧
      (Tachometer.update_value s new_value).value ≤ m) ∧
    (0 ≤ (Fuel_Gauge.add_to_value s change).value ∧
      (Fuel_Gauge.add_to_value s change).value ≤ m) ∧
    (0 ≤ (Fuel_Gauge.update_value s new_value).value ∧
      (Fuel_Gauge.update_value s new_value).value ≤ m) ∧
    (0 ≤ (Speedometer.add_to_value s change).value ∧
      (Speedometer.add_to_value s change).value ≤ m) ∧
    (0 ≤ (Speedometer.update_value s new_value).value ∧
      (Speedometer.update_value s new_value).value ≤ m) ∧
    (∀ ds : List Int, (m + 1) ∣ ds.sum → 0 ≤ s.value → s.value ≤ m →
      (ds.foldl Temp_Gauge.add_to_value s).value = s.value ∧
      (ds.foldl Tachometer.add_to_value s).value = s.value ∧
      (ds.foldl Fuel_Gauge.add_to_value s).value = s.value ∧
      (ds.foldl Speedometer.add_to_value s).value = s.value) := by
  subst hs
  refine ⟨wrap_emod_bounds _ _ hm, wrap_emod_bounds _ _ hm,
    wrap_emod_bounds _ _ hm, wrap_emod_bounds _ _ hm,
    wrap_emod_bounds _ _ hm, wrap_emod_bounds _ _ hm,
    wrap_emod_bounds _ _ hm, wrap_emod_bounds _ _ hm,
    fun ds hdvd h0 h1 => ?_⟩
  have h := temp_foldl_add_id ds s hm hdvd h0 h1
  exact ⟨h, by rw [tach_add_eq_temp]; exact h,
    by rw [fuel_add_eq_temp]; exact h, by rw [speed_add_eq_temp]; exact h⟩

/-- C3 witness: `max_value = 300`, value 42, one add, and two adds of 301
(summing to `2 * (300 + 1)`) returning to 42. -/
theorem gauge_wrap_invariant_witness :
    (0 < (300 : Int)) ∧
    (0 ≤ (Temp_Gauge.add_to_value ⟨42, 300⟩ 5).value ∧
      (Temp_Gauge.add_to_value ⟨42, 300⟩ 5).value ≤ 300) ∧
    (([301, 301] : List Int).foldl Temp_Gauge.add_to_value ⟨42, 300⟩).value = 42 ∧
    (([301, 301] : List Int).foldl Speedometer.add_to_value ⟨42, 300⟩).value = 42 := by
  have h := gauge_wrap_invariant 300 (by decide) ⟨42, 300⟩ rfl 5 7
  have h9 := h.2.2.2.2.2.2.2.2 [301, 301] ⟨2, by decide⟩ (by decide) (by decide)
  exact ⟨by decide, h.1, h9.1, h9.2.2.2⟩

/-- C4 counterexample: the constructors perform no validation, so
construction with `max_value = 0` (a non-positive bound) succeeds silently
for all four gauge classes, contradicting "rejected at construction". -/
theorem gauge_construction_not_rejected_cex :
    Temp_Gauge.init 0 = .ok { value := 0, max_value := 0 } ∧
    Tachometer.init 0 = .ok { value := 0, max_value := 0 } ∧
    Fuel_Gauge.init 0 = .ok { value := 0, max_value := 0 } ∧
    Speedometer.init 0 = .ok { value := 0, max_value := 0 } ∧
    ((0 : Int) ≤ 0) :=
  ⟨rfl, rfl, rfl, rfl, by decide⟩

/-- C4 amended: construction never rejects a non-positive `max_value`; for
every `max_value ≤ 0` each gauge constructor succeeds and stores the given
bound unchanged (callers must validate `max_value > 0` themselves). -/
theorem gauge_construction_accepts_nonpositive (m : Int) (hm : m ≤ 0) :
    Temp_Gauge.init m = .ok { value := 0, max_value := m } ∧
    Tachometer.init m = .ok { value := 0, max_value := m } ∧
    Fuel_Gauge.init m = .ok { value := 0, max_value := m } ∧
    Speedometer.init m = .ok { value := 0, max_value := m } :=
  ⟨rfl, rfl, rfl, rfl⟩

/-- C4 amended witness at `max_value = -5`. -/
theorem gauge_construction_accepts_nonpositive_witness :
    ((-5 : Int) ≤ 0) ∧
    Temp_Gauge.init (-5) = .ok { value := 0, max_value := -5 } ∧
    Tachometer.init (-5) = .ok { value := 0, max_value := -5 } ∧
    Fuel_Gauge.init (-5) = .ok { value := 0, max_value := -5 } ∧
    Speedometer.init (-5) = .ok { value := 0, max_value := -5 } :=
  ⟨by decide, gauge_construction_accepts_nonpositive (-5) (by decide)⟩

/-- C5: for the tachometer with `max_value > 0` and `value ∈ [0,
max_value]`, the drawn arc span is `arc_value = -(value / (max_value *
0.5)) * 90` floor-clamped at `-90`; its magnitude never exceeds 90
degrees, and `value = max_value` yields exactly `-90`. -/
theorem tachometer_arc_clamp (v m : Int) (hm : 0 < m) (h0 : 0 ≤ v)
    (hv : v ≤ m) :
    Tachometer.arc_span_drawn v m = max (Tachometer.arc_value v m) (-90) ∧
    -90 ≤ Tachometer.arc_span_drawn v m ∧
    Tachometer.arc_span_drawn v m ≤ 0 ∧
    |Tachometer.arc_span_drawn v m| ≤ 90 ∧
    (v = m → Tachometer.arc_span_drawn v m = -90) := by
  have hmq : (0 : ℚ) < (m : ℚ) := by exact_mod_cast hm
  have hvq : (0 : ℚ) ≤ (v : ℚ) := by exact_mod_cast h0
  have harc_le : Tachometer.arc_value v m ≤ 0 := by
    unfold Tachometer.arc_value
    have hpos : (0 : ℚ) ≤ ((v : ℚ) / ((m : ℚ) * 0.5)) * 90 := by positivity
    linarith
  unfold Tachometer.arc_span_drawn
  split_ifs with h
  · refine ⟨(max_eq_right (le_of_lt h)).symm, le_refl _, by norm_num,
      by norm_num, fun _ => rfl⟩
  · push_neg at h
    refine ⟨(max_eq_left h).symm, h, harc_le, abs_le.mpr ⟨by linarith, by linarith⟩,
      fun hvm => ?_⟩
    exfalso
    subst hvm
    have hdiv : (v : ℚ) / ((v : ℚ) * 0.5) = 2 := by
      field_simp
      ring
    have : Tachometer.arc_value v v = -180 := by
      unfold Tachometer.arc_value
      rw [hdiv]
      norm_num
    rw [this] at h
    norm_num at h

/-- C5 witness: saturated tachometer, `value = max_value = 5000`. -/
theorem tachometer_arc_clamp_witness :
    (0 < (5000 : Int)) ∧ (0 ≤ (5000 : Int)) ∧ ((5000 : Int) ≤ 5000) ∧
    Tachometer.arc_span_drawn 5000 5000 = -90 :=
  ⟨by decide, by decide, by decide,
    (tachometer_arc_clamp 5000 5000 (by decide) (by decide) (by decide)).2.2.2.2 rfl⟩

/-- C6 counterexample: the fuel gauge's value-fill pen color is not fixed;
with `max_value = 100` it is red at value 10 and green at value 50, both
in `[0, max_value]`. -/
theorem fuel_fill_color_value_dependent_cex :
    ((0 : Int) ≤ 10) ∧ ((10 : Int) ≤ 100) ∧
    ((0 : Int) ≤ 50) ∧ ((50 : Int) ≤ 100) ∧
    Fuel_Gauge.fill_color 10 100 = GaugeColor.red ∧
    Fuel_Gauge.fill_color 50 100 = GaugeColor.green ∧
    Fuel_Gauge.fill_color 10 100 ≠ Fuel_Gauge.fill_color 50 100 := by
  have h1 : Fuel_Gauge.fill_color 10 100 = GaugeColor.red := by
    norm_num [Fuel_Gauge.fill_color]
  have h2 : Fuel_Gauge.fill_color 50 100 = GaugeColor.green := by
    norm_num [Fuel_Gauge.fill_color]
  refine ⟨by decide, by decide, by decide, by decide, h1, h2, ?_⟩
  rw [h1, h2]
  decide

/-- C6 amended: the linear temperature gauge and the tachometer use fixed
gradient stops, `{0: red, 0.2: yellow, 1: green}` and the mirrored
`{0: green, 0.8: yellow, 1: red}`, independent of the current value; the
fuel gauge instead picks a solid fill color from the current value by
thresholds (green for `value ≥ 0.4 * max_value`, else yellow for
`value ≥ 0.2 * max_value`, else red for `value ≥ 0`, else magenta), so
only for the first two gauges is the fill coloring value-independent. -/
theorem gradient_stops_fixed_and_fuel_thresholds (v1 v2 m : Int) :
    Temp_Gauge.gradient_stops v1 m = Temp_Gauge.gradient_stops v2 m ∧
    Tachometer.gradient_stops v1 m = Tachometer.gradient_stops v2 m ∧
    Temp_Gauge.gradient_stops v1 m =
      [(1, .green), (0.2, .yellow), (0, .red)] ∧
    Tachometer.gradient_stops v1 m =
      [(0, .green), (0.8, .yellow), (1, .red)] ∧
    (0 < m →
      (Fuel_Gauge.fill_color v1 m = .green ↔ (m : ℚ) * 0.4 ≤ (v1 : ℚ)) ∧
      (Fuel_Gauge.fill_color v1 m = .yellow ↔
        (v1 : ℚ) < (m : ℚ) * 0.4 ∧ (m : ℚ) * 0.2 ≤ (v1 : ℚ)) ∧
      (Fuel_Gauge.fill_color v1 m = .red ↔
        (v1 : ℚ) < (m : ℚ) * 0.2 ∧ (0 : ℚ) ≤ (v1 : ℚ)) ∧
      (Fuel_Gauge.fill_color v1 m = .magenta ↔ (v1 : ℚ) < 0)) := by
  refine ⟨rfl, rfl, rfl, rfl, fun hm => ?_⟩
  have hmq : (0 : ℚ) < (m : ℚ) := by exact_mod_cast hm
  unfold Fuel_Gauge.fill_color
  split_ifs with h1 h2 h3
  · rw [ge_iff_le] at h1
    exact ⟨iff_of_true rfl h1,
      iff_of_false (by decide) (fun hx => by linarith [hx.1]),
      iff_of_false (by decide) (fun hx => by linarith [hx.1, hx.2]),
      iff_of_false (by decide) (fun hx => by linarith)⟩
  · rw [ge_iff_le, not_le] at h1
    rw [ge_iff_le] at h2
    exact ⟨iff_of_false (by decide) (fun hx => by linarith),
      iff_of_true rfl ⟨h1, h2⟩,
      iff_of_false (by decide) (fun hx => by linarith [hx.1]),
      iff_of_false (by decide) (fun hx => by linarith)⟩
  · rw [ge_iff_le, not_le] at h1
    rw [ge_iff_le, not_le] at h2
    rw [ge_iff_le] at h3
    exact ⟨iff_of_false (by decide) (fun hx => by linarith),
      iff_of_false (by decide) (fun hx => by linarith [hx.2]),
      iff_of_true rfl ⟨h2, h3⟩,
      iff_of_false (by decide) (fun hx => by linarith)⟩
  · rw [ge_iff_le, not_le] at h1
    rw [ge_iff_le, not_le] at h2
    rw [ge_iff_le, not_le] at h3
    exact ⟨iff_of_false (by decide) (fun hx => by linarith),
      iff_of_false (by decide) (fun hx => by linarith [hx.2]),
      iff_of_false (by decide) (fun hx => by linarith [hx.2]),
      iff_of_true rfl h3⟩

/-- C6 amended witness: gauges with `max_value = 100`, fuel value 50. -/
theorem gradient_stops_fixed_and_fuel_thresholds_witness :
    Temp_Gauge.gradient_stops 10 100 = Temp_Gauge.gradient_stops 50 100 ∧
    Tachometer.gradient_stops 10 100 = Tachometer.gradient_stops 50 100 ∧
    (0 < (100 : Int)) ∧
    (Fuel_Gauge.fill_color 10 100 = .green ↔
      (100 : ℚ) * 0.4 ≤ ((10 : Int) : ℚ)) := by
  have h := gradient_stops_fixed_and_fuel_thresholds 10 50 100
  exact ⟨h.1, h.2.1, by decide, (h.2.2.2.2 (by decide)).1⟩

/-- C9: the tick labels of the linear temperature gauge and the tachometer
are the truncation `int(max_value * fraction)` at the labelled fractions
4/5, 3/5, 2/5, 1/5 (for `max_value ≥ 0`, truncation agrees with integer
floor division); for `max_value = 300` the 60%-tick label is exactly 180,
and for `max_value = 301` it is 180 where rounding would give 181. -/
theorem tick_label_truncation (m : Int) :
    Temp_Gauge.tick_labels m =
      [m, pyInt ((m : ℚ) * 4 / 5), pyInt ((m : ℚ) * 3 / 5),
       pyInt ((m : ℚ) * 2 / 5), pyInt ((m : ℚ) * 1 / 5), 0] ∧
    Tachometer.tick_labels m = Temp_Gauge.tick_labels m ∧
    (0 ≤ m → ∀ k : Int, 0 ≤ k →
      pyInt ((m : ℚ) * k / 5) = (m * k) / 5) ∧
    (Temp_Gauge.tick_labels 300).get? 2 = some 180 ∧
    pyInt ((300 : ℚ) * 3 / 5) = 180 ∧
    pyInt ((301 : ℚ) * 3 / 5) = 180 ∧
    round ((301 : ℚ) * 3 / 5) = 181 := by
  refine ⟨rfl, rfl, fun hm k hk => ?_, ?_, ?_, ?_, ?_⟩
  · have hmq : (0 : ℚ) ≤ (m : ℚ) := by exact_mod_cast hm
    have hkq : (0 : ℚ) ≤ (k : ℚ) := by exact_mod_cast hk
    have hq : (0 : ℚ) ≤ (m : ℚ) * k / 5 := by positivity
    unfold pyInt
    rw [if_pos hq]
    have hcast : (m : ℚ) * (k : ℚ) / (5 : ℚ) =
        ((m * k : Int) : ℚ) / ((5 : ℕ) : ℚ) := by
      push_cast
      ring
    rw [hcast, Rat.floor_intCast_div_natCast]
    norm_num
  · show some (pyInt ((300 : ℚ) * 3 / 5)) = some 180
    norm_num [pyInt]
  · norm_num [pyInt]
  · norm_num [pyInt]
  · rw [round_eq]
    norm_num

/-- C9 witness: `max_value = 300`, the 60% tick (fraction 3/5). -/
theorem tick_label_truncation_witness :
    ((0 : Int) ≤ 300) ∧ ((0 : Int) ≤ 3) ∧
    pyInt ((300 : ℚ) * 3 / 5) = (300 * 3) / 5 ∧
    (Temp_Gauge.tick_labels 300).get? 2 = some 180 := by
  have h := tick_label_truncation 300
  exact ⟨by decide, by decide, h.2.2.1 (by decide) 3 (by decide), h.2.2.2.1⟩

/-- C7: in the Upper phase with the cursor on Confirm (`"rmp_digit"`),
`move_two_step` snapshots `captured_upper = d0*1000 + d1*100 + d2*10 + d3`,
resets the digits to `[0,0,0,0]`, sets the phase to `"Lower"`, moves the
cursor to the first digit, and emits nothing to the external consumer. -/
theorem two_step_upper_confirm (s : VariableSection)
    (hc : s.selected_two_step_digit = "rmp_digit")
    (hb : s.two_step_bound = "Upper") :
    Variable_Section.move_two_step s =
      ({ s with
          new_two_step_bounds :=
            (Variable_Section.digits_value s.two_step_current_digit_values,
             s.new_two_step_bounds.2)
          two_step_bound := "Lower"
          two_step_current_digit_values := ⟨0, 0, 0, 0⟩
          selected_two_step_digit := "first_digit" }, none) := by
  simp [Variable_Section.move_two_step, hc, hb]

/-- C7 witness: Upper-phase confirm with digits `0,1,0,0`. -/
theorem two_step_upper_confirm_witness :
    Variable_Section.move_two_step
      { current_widget := "Two-Step", new_two_step_bounds := (0, 0),
        selected_two_step_digit := "rmp_digit", two_step_bound := "Upper",
        two_step_current_digit_values := ⟨0, 1, 0, 0⟩,
        two_step_value_up := true, two_step_bad_input := false } =
      ({ current_widget := "Two-Step", new_two_step_bounds := (100, 0),
         selected_two_step_digit := "first_digit", two_step_bound := "Lower",
         two_step_current_digit_values := ⟨0, 0, 0, 0⟩,
         two_step_value_up := true, two_step_bad_input := false }, none) :=
  two_step_upper_confirm
    { current_widget := "Two-Step", new_two_step_bounds := (0, 0),
      selected_two_step_digit := "rmp_digit", two_step_bound := "Upper",
      two_step_current_digit_values := ⟨0, 1, 0, 0⟩,
      two_step_value_up := true, two_step_bad_input := false } rfl rfl

/-- C1 counterexample: running the spec's own commit example (digits
`0,1,0,0` for Upper, then `0,0,5,0` for Lower) through the machine emits
`(100, 50)` — the digit array `[0,1,0,0]` encodes 100, not 1000 — so the
pair `(1000, 50)` claimed by the spec is not what is emitted. -/
theorem two_step_commit_example_cex :
    two_step_example_state.new_two_step_bounds.1 = 100 ∧
    (Variable_Section.move_two_step two_step_example_state).2 = some (100, 50) ∧
    (Variable_Section.move_two_step two_step_example_state).2 ≠ some (1000, 50) := by
  refine ⟨by decide, by decide, by decide⟩

/-- C1 amended: in the Lower phase with the cursor on Confirm,
`move_two_step` computes `captured_lower = d0*1000 + d1*100 + d2*10 + d3`
and commits — emitting `(captured_upper, captured_lower)` and leaving the
two-step mode for the Competition widget — if and only if
`captured_lower < captured_upper`; in particular, entering digits
`0,1,0,0` for Upper and then `0,0,5,0` for Lower commits and emits
`(100, 50)`. -/
theorem two_step_lower_confirm (s : VariableSection)
    (hw : s.current_widget = "Two-Step")
    (hc : s.selected_two_step_digit = "rmp_digit")
    (hb : s.two_step_bound = "Lower") :
    ((Variable_Section.move_two_step s).1.new_two_step_bounds.2 =
      Variable_Section.digits_value s.two_step_current_digit_values) ∧
    ((Variable_Section.move_two_step s).2 =
        some (s.new_two_step_bounds.1,
          Variable_Section.digits_value s.two_step_current_digit_values) ↔
      Variable_Section.digits_value s.two_step_current_digit_values <
        s.new_two_step_bounds.1) ∧
    (((Variable_Section.move_two_step s).1.current_widget = "Competition") ↔
      Variable_Section.digits_value s.two_step_current_digit_values <
        s.new_two_step_bounds.1) ∧
    (¬ Variable_Section.digits_value s.two_step_current_digit_values <
        s.new_two_step_bounds.1 →
      (Variable_Section.move_two_step s).2 = none) ∧
    (Variable_Section.move_two_step two_step_example_state).2 = some (100, 50) := by
  have hex : (Variable_Section.move_two_step two_step_example_state).2 =
      some (100, 50) := by decide
  by_cases hge : s.new_two_step_bounds.1 ≤
      Variable_Section.digits_value s.two_step_current_digit_values
  · refine ⟨?_, ?_, ?_, ?_, hex⟩ <;>
      simp [Variable_Section.move_two_step, hc, hb, hw, hge, not_lt.mpr hge]
  · push_neg at hge
    refine ⟨?_, ?_, ?_, ?_, hex⟩ <;>
      simp [Variable_Section.move_two_step, Variable_Section.change_widget,
        hc, hb, hw, not_le.mpr hge, hge]

/-- C1 amended witness: Lower-phase confirm with upper bound 100 and
digits `0,0,5,0` (lower bound 50); `50 < 100` so the pair is emitted. -/
theorem two_step_lower_confirm_witness :
    (Variable_Section.move_two_step
      { current_widget := "Two-Step", new_two_step_bounds := (100, 0),
        selected_two_step_digit := "rmp_digit", two_step_bound := "Lower",
        two_step_current_digit_values := ⟨0, 0, 5, 0⟩,
        two_step_value_up := true, two_step_bad_input := false }).2 =
      some (100, 50) := by
  have h := two_step_lower_confirm
    { current_widget := "Two-Step", new_two_step_bounds := (100, 0),
      selected_two_step_digit := "rmp_digit", two_step_bound := "Lower",
      two_step_current_digit_values := ⟨0, 0, 5, 0⟩,
      two_step_value_up := true, two_step_bad_input := false } rfl rfl rfl
  exact h.2.1.mpr (by decide)

/-- C8: `update_two_step` with `value = +1` or `-1` changes only the digit
under the cursor, setting it to `(old + value) % 10` (so it stays in
`[0, 9]`); it never moves the cursor, changes the phase, the displayed
widget, the captured bounds, or the bad-input flag; it does nothing when
the cursor is on Confirm (`"rmp_digit"`); and ten consecutive `+1`
adjustments return the digit array to its original value. -/
theorem two_step_adjust_digit (s : VariableSection) (v : Int)
    (hv : v = 1 ∨ v = -1) :
    (s.selected_two_step_digit = "rmp_digit" →
      Variable_Section.update_two_step s v = s) ∧
    (s.selected_two_step_digit = "first_digit" →
      Variable_Section.update_two_step s v =
        { s with two_step_current_digit_values :=
            { s.two_step_current_digit_values with
              d0 := (s.two_step_current_digit_values.d0 + v) % 10 } } ∧
      0 ≤ (s.two_step_current_digit_values.d0 + v) % 10 ∧
      (s.two_step_current_digit_values.d0 + v) % 10 ≤ 9) ∧
    (s.selected_two_step_digit = "second_digit" →
      Variable_Section.update_two_step s v =
        { s with two_step_current_digit_values :=
            { s.two_step_current_digit_values with
              d1 := (s.two_step_current_digit_values.d1 + v) % 10 } } ∧
      0 ≤ (s.two_step_current_digit_values.d1 + v) % 10 ∧
      (s.two_step_current_digit_values.d1 + v) % 10 ≤ 9) ∧
    (s.selected_two_step_digit = "third_digit" →
      Variable_Section.update_two_step s v =
        { s with two_step_current_digit_values :=
            { s.two_step_current_digit_values with
              d2 := (s.two_step_current_digit_values.d2 + v) % 10 } } ∧
      0 ≤ (s.two_step_current_digit_values.d2 + v) % 10 ∧
      (s.two_step_current_digit_values.d2 + v) % 10 ≤ 9) ∧
    (s.selected_two_step_digit = "forth_digit" →
      Variable_Section.update_two_step s v =
        { s with two_step_current_digit_values :=
            { s.two_step_current_digit_values with
              d3 := (s.two_step_current_digit_values.d3 + v) % 10 } } ∧
      0 ≤ (s.two_step_current_digit_values.d3 + v) % 10 ∧
      (s.two_step_current_digit_values.d3 + v) % 10 ≤ 9) ∧
    ((Variable_Section.update_two_step s v).selected_two_step_digit =
        s.selected_two_step_digit ∧
      (Variable_Section.update_two_step s v).two_step_bound = s.two_step_bound ∧
      (Variable_Section.update_two_step s v).current_widget = s.current_widget ∧
      (Variable_Section.update_two_step s v).new_two_step_bounds =
        s.new_two_step_bounds ∧
      (Variable_Section.update_two_step s v).two_step_bad_input =
        s.two_step_bad_input) ∧
    (0 ≤ s.two_step_current_digit_values.d0 → s.two_step_current_digit_values.d0 ≤ 9 →
     0 ≤ s.two_step_current_digit_values.d1 → s.two_step_current_digit_values.d1 ≤ 9 →
     0 ≤ s.two_step_current_digit_values.d2 → s.two_step_current_digit_values.d2 ≤ 9 →
     0 ≤ s.two_step_current_digit_values.d3 → s.two_step_current_digit_values.d3 ≤ 9 →
      ((List.replicate 10 (TwoStepOp.adjust 1)).foldl
          Variable_Section.applyOp s).two_step_current_digit_values =
        s.two_step_current_digit_values) := by
  obtain ⟨cw, bnds, sel, bnd, dg, vu, bi⟩ := s
  obtain ⟨d0, d1, d2, d3⟩ := dg
  refine ⟨?_, ?_, ?_, ?_, ?_, ?_, ?_⟩
  · intro h
    subst h
    simp [Variable_Section.update_two_step]
  · intro h
    subst h
    refine ⟨by simp [Variable_Section.update_two_step], by omega, by omega⟩
  · intro h
    subst h
    refine ⟨by simp [Variable_Section.update_two_step], by omega, by omega⟩
  · intro h
    subst h
    refine ⟨by simp [Variable_Section.update_two_step], by omega, by omega⟩
  · intro h
    subst h
    refine ⟨by simp [Variable_Section.update_two_step], by omega, by omega⟩
  · unfold Variable_Section.update_two_step
    split_ifs <;> exact ⟨rfl, rfl, rfl, rfl, rfl⟩
  · intro h0a h0b h1a h1b h2a h2b h3a h3b
    simp only [VariableSection.two_step_current_digit_values, Digits.d0,
      Digits.d1, Digits.d2, Digits.d3] at h0a h0b h1a h1b h2a h2b h3a h3b
    by_cases e1 : sel = "first_digit"
    · subst e1
      simp only [List.replicate, List.foldl_cons, List.foldl_nil,
        Variable_Section.applyOp]
      simp [Variable_Section.update_two_step]
      omega
    · by_cases e2 : sel = "second_digit"
      · subst e2
        simp only [List.replicate, List.foldl_cons, List.foldl_nil,
          Variable_Section.applyOp]
        simp [Variable_Section.update_two_step]
        omega
      · by_cases e3 : sel = "third_digit"
        · subst e3
          simp only [List.replicate, List.foldl_cons, List.foldl_nil,
            Variable_Section.applyOp]
          simp [Variable_Section.update_two_step]
          omega
        · by_cases e4 : sel = "forth_digit"
          · subst e4
            simp only [List.replicate, List.foldl_cons, List.foldl_nil,
              Variable_Section.applyOp]
            simp [Variable_Section.update_two_step]
            omega
          · simp only [List.replicate, List.foldl_cons, List.foldl_nil,
              Variable_Section.applyOp, Variable_Section.update_two_step,
              if_neg e1, if_neg e2, if_neg e3, if_neg e4]

/-- C8 witness: incrementing the first digit from 3 once (giving 4), and
ten times (returning to 3). -/
theorem two_step_adjust_digit_witness :
    Variable_Section.update_two_step
        { current_widget := "Two-Step", new_two_step_bounds := (0, 0),
          selected_two_step_digit := "first_digit", two_step_bound := "Upper",
          two_step_current_digit_values := ⟨3, 0, 0, 0⟩,
          two_step_value_up := true, two_step_bad_input := false } 1 =
      { current_widget := "Two-Step", new_two_step_bounds := (0, 0),
        selected_two_step_digit := "first_digit", two_step_bound := "Upper",
        two_step_current_digit_values := ⟨4, 0, 0, 0⟩,
        two_step_value_up := true, two_step_bad_input := false } ∧
    ((List.replicate 10 (TwoStepOp.adjust 1)).foldl Variable_Section.applyOp
        { current_widget := "Two-Step", new_two_step_bounds := (0, 0),
          selected_two_step_digit := "first_digit", two_step_bound := "Upper",
          two_step_current_digit_values := ⟨3, 0, 0, 0⟩,
          two_step_value_up := true,
          two_step_bad_input := false }).two_step_current_digit_values =
      ⟨3, 0, 0, 0⟩ := by
  have h := two_step_adjust_digit
    { current_widget := "Two-Step", new_two_step_bounds := (0, 0),
      selected_two_step_digit := "first_digit", two_step_bound := "Upper",
      two_step_current_digit_values := ⟨3, 0, 0, 0⟩,
      two_step_value_up := true, two_step_bad_input := false } 1 (Or.inl rfl)
  exact ⟨(h.2.1 rfl).1,
    h.2.2.2.2.2.2 (by decide) (by decide) (by decide) (by decide)
      (by decide) (by decide) (by decide) (by decide)⟩

/-- C2: after a Lower-phase confirm with `captured_lower >=
captured_upper`, the session is sticky-invalid: the confirm emits nothing
and raises `two_step_bad_input`; from the resulting state every
`update_two_step` is a no-op, every `move_two_step` is a no-op that emits
nothing, any sequence of further inputs leaves the state unchanged, and an
explicit reset (`change_widget "Two-Step"`) restores the same fresh
session a new entry would get. -/
theorem two_step_invalid_sticky (s : VariableSection)
    (hc : s.selected_two_step_digit = "rmp_digit")
    (hb : s.two_step_bound = "Lower")
    (hge : s.new_two_step_bounds.1 ≤
      Variable_Section.digits_value s.two_step_current_digit_values) :
    (Variable_Section.move_two_step s).2 = none ∧
    (Variable_Section.move_two_step s).1.two_step_bad_input = true ∧
    (∀ v : Int,
      Variable_Section.update_two_step (Variable_Section.move_two_step s).1 v =
        (Variable_Section.move_two_step s).1) ∧
    (Variable_Section.move_two_step (Variable_Section.move_two_step s).1 =
      ((Variable_Section.move_two_step s).1, none)) ∧
    (∀ ops : List TwoStepOp,
      ops.foldl Variable_Section.applyOp (Variable_Section.move_two_step s).1 =
        (Variable_Section.move_two_step s).1) ∧
    (Variable_Section.change_widget (Variable_Section.move_two_step s).1
        "Two-Step" =
      Variable_Section.change_widget Variable_Section.init "Two-Step") := by
  obtain ⟨cw, ⟨b0, b1⟩, sel, bnd, dg, vu, bi⟩ := s
  dsimp only at hc hb hge
  subst hc
  subst hb
  have hmv : Variable_Section.move_two_step
      ⟨cw, (b0, b1), "rmp_digit", "Lower", dg, vu, bi⟩ =
      (⟨cw, (b0, Variable_Section.digits_value dg), "rmp_digit", "Lower",
        dg, vu, true⟩, none) := by
    simp [Variable_Section.move_two_step, ge_iff_le, hge]
  have hupd : ∀ v : Int, Variable_Section.update_two_step
      ⟨cw, (b0, Variable_Section.digits_value dg), "rmp_digit", "Lower",
        dg, vu, true⟩ v =
      ⟨cw, (b0, Variable_Section.digits_value dg), "rmp_digit", "Lower",
        dg, vu, true⟩ := by
    intro v
    simp [Variable_Section.update_two_step]
  have hmv2 : Variable_Section.move_two_step
      ⟨cw, (b0, Variable_Section.digits_value dg), "rmp_digit", "Lower",
        dg, vu, true⟩ =
      (⟨cw, (b0, Variable_Section.digits_value dg), "rmp_digit", "Lower",
        dg, vu, true⟩, none) := by
    simp [Variable_Section.move_two_step, ge_iff_le, hge]
  have hfold : ∀ ops : List TwoStepOp, ops.foldl Variable_Section.applyOp
      ⟨cw, (b0, Variable_Section.digits_value dg), "rmp_digit", "Lower",
        dg, vu, true⟩ =
      ⟨cw, (b0, Variable_Section.digits_value dg), "rmp_digit", "Lower",
        dg, vu, true⟩ := by
    intro ops
    induction ops with
    | nil => rfl
    | cons op rest ih =>
      rw [List.foldl_cons]
      cases op with
      | adjust v =>
        rw [show Variable_Section.applyOp
          ⟨cw, (b0, Variable_Section.digits_value dg), "rmp_digit", "Lower",
            dg, vu, true⟩ (TwoStepOp.adjust v) = _ from hupd v]
        exact ih
      | advance =>
        have ha : Variable_Section.applyOp
            ⟨cw, (b0, Variable_Section.digits_value dg), "rmp_digit", "Lower",
              dg, vu, true⟩ TwoStepOp.advance =
            ⟨cw, (b0, Variable_Section.digits_value dg), "rmp_digit", "Lower",
              dg, vu, true⟩ := by
          show (Variable_Section.move_two_step _).1 = _
          rw [hmv2]
        rw [ha]
        exact ih
  rw [hmv]
  exact ⟨rfl, rfl, hupd, hmv2, hfold, rfl⟩

/-- C2 witness: upper bound 50, Lower digits `0,1,0,0` (lower bound 100,
`100 >= 50`), then a further decrement, an advance, and a two-input
sequence, all no-ops; reset restores the fresh session. -/
theorem two_step_invalid_sticky_witness :
    (Variable_Section.move_two_step
      { current_widget := "Two-Step", new_two_step_bounds := (50, 0),
        selected_two_step_digit := "rmp_digit", two_step_bound := "Lower",
        two_step_current_digit_values := ⟨0, 1, 0, 0⟩,
        two_step_value_up := true, two_step_bad_input := false }).2 = none ∧
    (Variable_Section.move_two_step
      { current_widget := "Two-Step", new_two_step_bounds := (50, 0),
        selected_two_step_digit := "rmp_digit", two_step_bound := "Lower",
        two_step_current_digit_values := ⟨0, 1, 0, 0⟩,
        two_step_value_up := true,
        two_step_bad_input := false }).1.two_step_bad_input = true ∧
    Variable_Section.update_two_step
      (Variable_Section.move_two_step
        { current_widget := "Two-Step", new_two_step_bounds := (50, 0),
          selected_two_step_digit := "rmp_digit", two_step_bound := "Lower",
          two_step_current_digit_values := ⟨0, 1, 0, 0⟩,
          two_step_value_up := true, two_step_bad_input := false }).1 (-1) =
      (Variable_Section.move_two_step
        { current_widget := "Two-Step", new_two_step_bounds := (50, 0),
          selected_two_step_digit := "rmp_digit", two_step_bound := "Lower",
          two_step_current_digit_values := ⟨0, 1, 0, 0⟩,
          two_step_value_up := true, two_step_bad_input := false }).1 ∧
    ([TwoStepOp.advance, TwoStepOp.adjust 1].foldl Variable_Section.applyOp
      (Variable_Section.move_two_step
        { current_widget := "Two-Step", new_two_step_bounds := (50, 0),
          selected_two_step_digit := "rmp_digit", two_step_bound := "Lower",
          two_step_current_digit_values := ⟨0, 1, 0, 0⟩,
          two_step_value_up := true, two_step_bad_input := false }).1 =
      (Variable_Section.move_two_step
        { current_widget := "Two-Step", new_two_step_bounds := (50, 0),
          selected_two_step_digit := "rmp_digit", two_step_bound := "Lower",
          two_step_current_digit_values := ⟨0, 1, 0, 0⟩,
          two_step_value_up := true, two_step_bad_input := false }).1) ∧
    Variable_Section.change_widget
      (Variable_Section.move_two_step
        { current_widget := "Two-Step", new_two_step_bounds := (50, 0),
          selected_two_step_digit := "rmp_digit", two_step_bound := "Lower",
          two_step_current_digit_values := ⟨0, 1, 0, 0⟩,
          two_step_value_up := true, two_step_bad_input := false }).1
      "Two-Step" =
      Variable_Section.change_widget Variable_Section.init "Two-Step" := by
  have h := two_step_invalid_sticky
    { current_widget := "Two-Step", new_two_step_bounds := (50, 0),
      selected_two_step_digit := "rmp_digit", two_step_bound := "Lower",
      two_step_current_digit_values := ⟨0, 1, 0, 0⟩,
      two_step_value_up := true, two_step_bad_input := false }
    rfl rfl (by decide)
  exact ⟨h.1, h.2.1, h.2.2.1 (-1),
    h.2.2.2.2.1 [TwoStepOp.advance, TwoStepOp.adjust 1], h.2.2.2.2.2⟩

/-- C10: `update_two_step` never changes the captured upper bound
`new_two_step_bounds[0]`; during the Lower phase `move_two_step` never
changes it either (whether advancing the cursor, rejecting, or
committing); and the only transition that can rewrite it is an
Upper-phase confirm (cursor on `"rmp_digit"`, phase `"Upper"`). -/
theorem two_step_upper_bound_frame (s : VariableSection) (v : Int) :
    (Variable_Section.update_two_step s v).new_two_step_bounds.1 =
      s.new_two_step_bounds.1 ∧
    (s.two_step_bound = "Lower" →
      (Variable_Section.move_two_step s).1.new_two_step_bounds.1 =
        s.new_two_step_bounds.1) ∧
    ((Variable_Section.move_two_step s).1.new_two_step_bounds.1 ≠
        s.new_two_step_bounds.1 →
      s.selected_two_step_digit = "rmp_digit" ∧
        s.two_step_bound = "Upper") := by
  refine ⟨?_, ?_, ?_⟩
  · unfold Variable_Section.update_two_step
    split_ifs <;> rfl
  · intro hb
    unfold Variable_Section.move_two_step
    by_cases h1 : s.selected_two_step_digit = "rmp_digit"
    · rw [if_pos h1, hb]
      rw [if_neg (show ¬("Lower" = "Upper") by decide), if_pos rfl]
      dsimp only
      split_ifs with h4 <;> rfl
    · rw [if_neg h1]
  · intro hne
    by_cases h1 : s.selected_two_step_digit = "rmp_digit"
    · by_cases h2 : s.two_step_bound = "Upper"
      · exact ⟨h1, h2⟩
      · exfalso
        apply hne
        unfold Variable_Section.move_two_step
        rw [if_pos h1, if_neg h2]
        by_cases h3 : s.two_step_bound = "Lower"
        · rw [if_pos h3]
          dsimp only
          split_ifs with h4 <;> rfl
        · rw [if_neg h3]
    · exfalso
      apply hne
      unfold Variable_Section.move_two_step
      rw [if_neg h1]

/-- C10 witness: a Lower-phase state with captured upper bound 50; both an
adjustment and a cursor advance leave it at 50. -/
theorem two_step_upper_bound_frame_witness :
    (Variable_Section.update_two_step
      { current_widget := "Two-Step", new_two_step_bounds := (50, 0),
        selected_two_step_digit := "first_digit", two_step_bound := "Lower",
        two_step_current_digit_values := ⟨0, 0, 0, 0⟩,
        two_step_value_up := true,
        two_step_bad_input := false } 1).new_two_step_bounds.1 = 50 ∧
    (Variable_Section.move_two_step
      { current_widget := "Two-Step", new_two_step_bounds := (50, 0),
        selected_two_step_digit := "first_digit", two_step_bound := "Lower",
        two_step_current_digit_values := ⟨0, 0, 0, 0⟩,
        two_step_value_up := true,
        two_step_bad_input := false }).1.new_two_step_bounds.1 = 50 := by
  have h := two_step_upper_bound_frame
    { current_widget := "Two-Step", new_two_step_bounds := (50, 0),
      selected_two_step_digit := "first_digit", two_step_bound := "Lower",
      two_step_current_digit_values := ⟨0, 0, 0, 0⟩,
      two_step_value_up := true, two_step_bad_input := false } 1
  exact ⟨h.1, h.2.1 rfl⟩
